import Mathlib

/-! # Space-Sim: shallow embedding and verification

Embedding of the physics core of the Space-Sim repository:
`index.py` (multi-planet velocity-Verlet loop), `simulation.py`
(Sun-Earth-Moon variant whose force raises `ValueError` on zero
separation), `simple-imp.py` (semi-implicit Euler variant with a
`max(distance, 1e3)` clamp and screen-space orbit points), and
`rocketsim.py` (RK4 rocket ascent with atmosphere, drag and fuel
depletion).

Real-valued Python arithmetic is modelled over `ℝ`.  `math.hypot dx dy`
is `Real.sqrt (dx ^ 2 + dy ^ 2)`; for a nonzero separation vector,
`math.cos (math.atan2 dy dx)` equals `dx / hypot dx dy` and
`math.sin (math.atan2 dy dx)` equals `dy / hypot dx dy`, while
`atan2 0 0 = 0` gives cosine `1` and sine `0` there; the embedding uses
these identities (`cosAtan2`, `sinAtan2`).  Python `raise`/`except` is
modelled with `Option`.  Python list `append` + conditional `pop(0)` is
`orbitAppend`. -/

noncomputable section

namespace SpaceSim

/-- Gravitational constant `G` (m^3 kg^-1 s^-2), shared by all variants. -/
def G : ℝ := 6.67430e-11

/-- `index.py` / `simulation.py` timestep constant (seconds, one minute). -/
def TIMESTEP : ℝ := 60

/-- `math.cos (math.atan2 dy dx)` (Python argument order `atan2(y, x)`),
expressed through the quadrant-correct identity; `atan2 0 0 = 0`, whose
cosine is `1`. -/
def cosAtan2 (dy dx : ℝ) : ℝ :=
  if dx = 0 ∧ dy = 0 then 1 else dx / Real.sqrt (dx ^ 2 + dy ^ 2)

/-- `math.sin (math.atan2 dy dx)`; `atan2 0 0 = 0`, whose sine is `0`. -/
def sinAtan2 (dy dx : ℝ) : ℝ :=
  if dx = 0 ∧ dy = 0 then 0 else dy / Real.sqrt (dx ^ 2 + dy ^ 2)

/-- The fields of `HeavenlyBody` in `index.py` / `simulation.py`. -/
structure Body where
  name : String
  mass : ℝ
  x : ℝ
  y : ℝ
  radius : ℝ
  color : ℕ × ℕ × ℕ
  x_velocity : ℝ
  y_velocity : ℝ
  orbit : List (ℝ × ℝ)
  is_sun : Bool

/-- `HeavenlyBody.__init__`: zero velocity, empty orbit, not the sun. -/
def mkBody (name : String) (mass x y radius : ℝ) (color : ℕ × ℕ × ℕ) : Body :=
  ⟨name, mass, x, y, radius, color, 0, 0, [], false⟩

/-- `HeavenlyBody.calculate_gravitational_force` from `index.py`: returns
`(0, 0)` at zero separation, otherwise decomposes `G*m1*m2/d^2` along
`atan2` of the separation vector. -/
def calculate_gravitational_force (self other : Body) : ℝ × ℝ :=
  let distance_x := other.x - self.x
  let distance_y := other.y - self.y
  let distance := Real.sqrt (distance_x ^ 2 + distance_y ^ 2)
  if distance = 0 then (0, 0)
  else
    let force := G * self.mass * other.mass / distance ^ 2
    (cosAtan2 distance_y distance_x * force,
     sinAtan2 distance_y distance_x * force)

/-- One `orbit.append(p)` followed by the
`if len(orbit) > cap: orbit.pop(0)` eviction used by every variant
(caps 500 and 5000 in the sources). -/
def orbitAppend {α : Type} (cap : ℕ) (orbit : List α) (p : α) : List α :=
  let o := orbit ++ [p]
  if cap < o.length then o.tail else o

/-- The force-accumulation loop of `HeavenlyBody.update_position`
(`index.py`): sums the pairwise forces over the peer bodies (the
`self == body: continue` entry already removed by the caller). -/
def totalForce (self : Body) (others : List Body) : ℝ × ℝ :=
  others.foldl
    (fun acc body =>
      let f := calculate_gravitational_force self body
      (acc.1 + f.1, acc.2 + f.2)) (0, 0)

/-- `HeavenlyBody.update_position` from `index.py`: half velocity kick,
position drift, second half kick with the same acceleration, then the
bounded orbit append (cap 5000). -/
def update_position (self : Body) (others : List Body) (timestep : ℝ) : Body :=
  let tf := totalForce self others
  let ax := tf.1 / self.mass
  let ay := tf.2 / self.mass
  let vx1 := self.x_velocity + ax * timestep / 2
  let vy1 := self.y_velocity + ay * timestep / 2
  let x1 := self.x + vx1 * timestep
  let y1 := self.y + vy1 * timestep
  let vx2 := vx1 + ax * timestep / 2
  let vy2 := vy1 + ay * timestep / 2
  { self with
    x := x1, y := y1, x_velocity := vx2, y_velocity := vy2,
    orbit := orbitAppend 5000 self.orbit (x1, y1) }

/-- `HeavenlyBody.calculate_gravitational_force` from `simulation.py`:
identical formula, but a zero separation raises
`ValueError(f"Collision between ...")`, modelled as `none`. -/
def calculate_gravitational_force_sim (self other : Body) : Option (ℝ × ℝ) :=
  let distance_x := other.x - self.x
  let distance_y := other.y - self.y
  let distance := Real.sqrt (distance_x ^ 2 + distance_y ^ 2)
  if distance = 0 then none
  else
    let force := G * self.mass * other.mass / distance ^ 2
    some (cosAtan2 distance_y distance_x * force,
          sinAtan2 distance_y distance_x * force)

/-- The force-accumulation loop of `HeavenlyBody.update_position`
(`simulation.py`): the `try/except ValueError: continue` skips a
colliding peer's contribution instead of letting the error escape. -/
def totalForceSim (self : Body) (others : List Body) : ℝ × ℝ :=
  others.foldl
    (fun acc body =>
      match calculate_gravitational_force_sim self body with
      | none => acc
      | some f => (acc.1 + f.1, acc.2 + f.2)) (0, 0)

/-- `HeavenlyBody.update_position` from `simulation.py`: same Verlet-style
kick-drift-kick as `index.py` but with the fixed module-level `TIMESTEP`
and the exception caught inside the step. -/
def update_position_sim (self : Body) (others : List Body) : Body :=
  let tf := totalForceSim self others
  let ax := tf.1 / self.mass
  let ay := tf.2 / self.mass
  let vx1 := self.x_velocity + ax * TIMESTEP / 2
  let vy1 := self.y_velocity + ay * TIMESTEP / 2
  let x1 := self.x + vx1 * TIMESTEP
  let y1 := self.y + vy1 * TIMESTEP
  let vx2 := vx1 + ax * TIMESTEP / 2
  let vy2 := vy1 + ay * TIMESTEP / 2
  { self with
    x := x1, y := y1, x_velocity := vx2, y_velocity := vy2,
    orbit := orbitAppend 5000 self.orbit (x1, y1) }

/-- The fields of `HeavenlyBody` in `simple-imp.py` (no `is_sun` flag). -/
structure SimpleBody where
  name : String
  mass : ℝ
  x : ℝ
  y : ℝ
  radius : ℝ
  color : ℕ × ℕ × ℕ
  x_velocity : ℝ
  y_velocity : ℝ
  orbit : List (ℝ × ℝ)

/-- Rendering scale of `simple-imp.py` (meters per pixel). -/
def SCALE_SIMPLE : ℝ := 5e-10

/-- Timestep of `simple-imp.py` (one day, seconds). -/
def TIMESTEP_SIMPLE : ℝ := 86400

/-- `HeavenlyBody.attraction` from `simple-imp.py`: clamps the separation
distance to at least `1e3` before dividing ("Prevent division by a very
small distance"); the angle still comes from the unclamped separation
vector, and there is no zero-separation branch. -/
def attraction (self other_body : SimpleBody) : ℝ × ℝ :=
  let distance_x := other_body.x - self.x
  let distance_y := other_body.y - self.y
  let distance0 := Real.sqrt (distance_x ^ 2 + distance_y ^ 2)
  let distance := max distance0 1e3
  let force := G * self.mass * other_body.mass / distance ^ 2
  (cosAtan2 distance_y distance_x * force,
   sinAtan2 distance_y distance_x * force)

/-- `HeavenlyBody.update_position` from `simple-imp.py`: semi-implicit
Euler with the fixed one-day timestep; the stored orbit point is the
*screen* coordinate of the new position (scale, zoom, half-window offset
and pan applied), with cap 500.  `width` and `height` are the pygame
window dimensions; `width / 2` is Python's integer floor division. -/
def update_position_simple (self : SimpleBody) (others : List SimpleBody)
    (width height : ℕ) (zoom pan_x pan_y : ℝ) : SimpleBody :=
  let tf := others.foldl
    (fun acc body =>
      let f := attraction self body
      (acc.1 + f.1, acc.2 + f.2)) ((0 : ℝ), (0 : ℝ))
  let vx := self.x_velocity + tf.1 / self.mass * TIMESTEP_SIMPLE
  let vy := self.y_velocity + tf.2 / self.mass * TIMESTEP_SIMPLE
  let x1 := self.x + vx * TIMESTEP_SIMPLE
  let y1 := self.y + vy * TIMESTEP_SIMPLE
  let orbit_x := x1 * SCALE_SIMPLE * zoom + ((width / 2 : ℕ) : ℝ) + pan_x
  let orbit_y := y1 * SCALE_SIMPLE * zoom + ((height / 2 : ℕ) : ℝ) + pan_y
  { self with
    x := x1, y := y1, x_velocity := vx, y_velocity := vy,
    orbit := orbitAppend 500 self.orbit (orbit_x, orbit_y) }

/-- One iteration of `for body in bodies: body.update_position(bodies, t)`
(`index.py` main loop): the body at index `i` is replaced in place, so it
reads the *current*, partially updated list (with itself removed, which is
what the `self == body: continue` identity test does). -/
def stepIter (t : ℝ) (bs : List Body) (i : ℕ) : List Body :=
  match bs.get? i with
  | none => bs
  | some b => bs.set i (update_position b (bs.eraseIdx i) t)

/-- The per-frame physics loop of `index.py`: sequential in-place update of
every body. -/
def stepAll (t : ℝ) (bs : List Body) : List Body :=
  (List.range bs.length).foldl (stepIter t) bs

/-- The state of the in-place loop after its first `i` iterations. -/
def stepUpTo (t : ℝ) (bs : List Body) (i : ℕ) : List Body :=
  (List.range i).foldl (stepIter t) bs

/-- Modelled from the spec: the snapshot-semantics step the specification
describes ("all bodies advance together on the same snapshot of
positions"), in which every body is updated against the pre-step
positions of all the others. -/
def stepAllSnapshot (t : ℝ) (bs : List Body) : List Body :=
  (List.range bs.length).map fun i =>
    match bs.get? i with
    | none => mkBody "" 0 0 0 0 (0, 0, 0)
    | some b => update_position b (bs.eraseIdx i) t

/-- Modelled from the spec: the velocity-Verlet variant the specification
describes, whose second half-kick uses the acceleration *recomputed at the
updated position* ("v += a·dt/2; x += v·dt; recompute a at new x ...;
v += a·dt/2").  `index.py` is to be compared against this. -/
def update_position_recompute (self : Body) (others : List Body)
    (timestep : ℝ) : Body :=
  let tf := totalForce self others
  let ax := tf.1 / self.mass
  let ay := tf.2 / self.mass
  let vx1 := self.x_velocity + ax * timestep / 2
  let vy1 := self.y_velocity + ay * timestep / 2
  let x1 := self.x + vx1 * timestep
  let y1 := self.y + vy1 * timestep
  let moved := { self with x := x1, y := y1 }
  let tf2 := totalForce moved others
  let ax2 := tf2.1 / self.mass
  let ay2 := tf2.2 / self.mass
  let vx2 := vx1 + ax2 * timestep / 2
  let vy2 := vy1 + ay2 * timestep / 2
  { self with
    x := x1, y := y1, x_velocity := vx2, y_velocity := vy2,
    orbit := orbitAppend 5000 self.orbit (x1, y1) }

/-- Mass of Earth (kg), `rocketsim.py`. -/
def M_EARTH : ℝ := 5.972e24

/-- Radius of Earth (m), `rocketsim.py`. -/
def R_EARTH : ℝ := 6.371e6

/-- Sea-level air density (kg/m^3), `rocketsim.py`. -/
def AIR_DENSITY_SEA_LEVEL : ℝ := 1.225

/-- `Atmosphere` from `rocketsim.py`. -/
structure Atmosphere where
  scale_height : ℝ

/-- `Atmosphere.get_air_density`: exponential falloff with altitude, the
altitude first clamped at zero (`if altitude < 0: altitude = 0`). -/
def Atmosphere.get_air_density (env : Atmosphere) (altitude : ℝ) : ℝ :=
  AIR_DENSITY_SEA_LEVEL * Real.exp (-(max altitude 0) / env.scale_height)

/-- The six-component state vector `[x, y, vx, vy, total_mass, fuel_mass]`
threaded through `Rocket.update_rk4`. -/
@[ext]
structure RState where
  x : ℝ
  y : ℝ
  vx : ℝ
  vy : ℝ
  m : ℝ
  f : ℝ

/-- Componentwise sum of state vectors (for stating RK4 algebra). -/
def RState.add (a b : RState) : RState :=
  ⟨a.x + b.x, a.y + b.y, a.vx + b.vx, a.vy + b.vy, a.m + b.m, a.f + b.f⟩

/-- Componentwise scalar multiple of a state vector. -/
def RState.smul (c : ℝ) (a : RState) : RState :=
  ⟨c * a.x, c * a.y, c * a.vx, c * a.vy, c * a.m, c * a.f⟩

/-- The fields of `Rocket` in `rocketsim.py` (rendering-only `acceleration`
omitted; it is written nowhere after `__init__`). -/
structure Rocket where
  mass : ℝ
  fuel_mass : ℝ
  total_mass : ℝ
  position : ℝ × ℝ
  velocity : ℝ × ℝ
  angle : ℝ
  thrust : ℝ
  thrusting : Bool
  exhaust_velocity : ℝ
  drag_coefficient : ℝ
  cross_sectional_area : ℝ
  path : List (ℝ × ℝ)

/-- `Rocket.__init__`: total mass is dry plus fuel, thrust starts at `0`
(the caller assigns it afterwards), the engine flag starts on, and the
exhaust velocity, drag coefficient and cross-sectional area are the
hard-coded constants. -/
def mkRocket (mass fuel_mass : ℝ) (position velocity : ℝ × ℝ)
    (angle : ℝ) : Rocket :=
  ⟨mass, fuel_mass, mass + fuel_mass, position, velocity, angle, 0, true,
   3000, 0.5, 10, []⟩

/-- The `derivatives` closure inside `Rocket.update_rk4`: gravity toward
the planet's center, exponential-atmosphere drag opposite the velocity
(zero at zero speed), thrust along the launch angle while the engine is on
and the trial state still has fuel, and the fuel-consumption rate
`thrust / exhaust_velocity` as the rate of change of *both* mass slots. -/
def derivatives (r : Rocket) (env : Atmosphere) (s : RState) : RState :=
  let distance := Real.sqrt (s.x ^ 2 + s.y ^ 2)
  let fg_magnitude := G * M_EARTH * s.m / distance ^ 2
  let fg_x := -fg_magnitude * (s.x / distance)
  let fg_y := -fg_magnitude * (s.y / distance)
  let altitude := distance - R_EARTH
  let air_density := env.get_air_density altitude
  let speed := Real.sqrt (s.vx ^ 2 + s.vy ^ 2)
  let fd_x := if speed = 0 then 0 else
    -(0.5 * air_density * speed ^ 2 * r.drag_coefficient *
        r.cross_sectional_area) * (s.vx / speed)
  let fd_y := if speed = 0 then 0 else
    -(0.5 * air_density * speed ^ 2 * r.drag_coefficient *
        r.cross_sectional_area) * (s.vy / speed)
  let thrust_force := if r.thrusting ∧ 0 < s.f then r.thrust else 0
  let d_mass := if r.thrusting ∧ 0 < s.f then
    -(r.thrust / r.exhaust_velocity) else 0
  let thrust_angle := r.angle * Real.pi / 180
  let ft_x := thrust_force * Real.cos thrust_angle
  let ft_y := thrust_force * Real.sin thrust_angle
  let ax := (fg_x + fd_x + ft_x) / s.m
  let ay := (fg_y + fd_y + ft_y) / s.m
  ⟨s.vx, s.vy, ax, ay, d_mass, d_mass⟩

/-- The state vector `Rocket.update_rk4` builds from the rocket's fields. -/
def Rocket.state (r : Rocket) : RState :=
  ⟨r.position.1, r.position.2, r.velocity.1, r.velocity.2,
   r.total_mass, r.fuel_mass⟩

/-- The RK4 stage evaluations and combination of `Rocket.update_rk4`
(lines `k1 = derivatives(state)` through `new_state = ...`), written
componentwise exactly as the source's list comprehensions. -/
def integratedState (r : Rocket) (env : Atmosphere) (dt : ℝ) : RState :=
  let state := r.state
  let k1 := derivatives r env state
  let state_k2 : RState :=
    ⟨state.x + 0.5 * dt * k1.x, state.y + 0.5 * dt * k1.y,
     state.vx + 0.5 * dt * k1.vx, state.vy + 0.5 * dt * k1.vy,
     state.m + 0.5 * dt * k1.m, state.f + 0.5 * dt * k1.f⟩
  let k2 := derivatives r env state_k2
  let state_k3 : RState :=
    ⟨state.x + 0.5 * dt * k2.x, state.y + 0.5 * dt * k2.y,
     state.vx + 0.5 * dt * k2.vx, state.vy + 0.5 * dt * k2.vy,
     state.m + 0.5 * dt * k2.m, state.f + 0.5 * dt * k2.f⟩
  let k3 := derivatives r env state_k3
  let state_k4 : RState :=
    ⟨state.x + dt * k3.x, state.y + dt * k3.y,
     state.vx + dt * k3.vx, state.vy + dt * k3.vy,
     state.m + dt * k3.m, state.f + dt * k3.f⟩
  let k4 := derivatives r env state_k4
  ⟨state.x + dt / 6 * (k1.x + 2 * k2.x + 2 * k3.x + k4.x),
   state.y + dt / 6 * (k1.y + 2 * k2.y + 2 * k3.y + k4.y),
   state.vx + dt / 6 * (k1.vx + 2 * k2.vx + 2 * k3.vx + k4.vx),
   state.vy + dt / 6 * (k1.vy + 2 * k2.vy + 2 * k3.vy + k4.vy),
   state.m + dt / 6 * (k1.m + 2 * k2.m + 2 * k3.m + k4.m),
   state.f + dt / 6 * (k1.f + 2 * k2.f + 2 * k3.f + k4.f)⟩

/-- `Rocket.update_rk4`: RK4 integration, then the negative-fuel clamp
(fuel to zero, total mass to the dry mass), then the thrust cutoff once
fuel is at or below zero, then the bounded path append (cap 5000). -/
def update_rk4 (r : Rocket) (dt : ℝ) (env : Atmosphere) : Rocket :=
  let ns := integratedState r env dt
  let r1 := { r with position := (ns.x, ns.y), velocity := (ns.vx, ns.vy),
                     total_mass := ns.m, fuel_mass := ns.f }
  let r2 := if r1.fuel_mass < 0 then
      { r1 with fuel_mass := 0, total_mass := r.mass } else r1
  let r3 := if r2.fuel_mass ≤ 0 then
      { r2 with thrusting := false, thrust := 0 } else r2
  { r3 with path := orbitAppend 5000 r3.path (r3.position.1, r3.position.2) }

/-- Astronomical unit in meters (`HeavenlyBody.AU`, `index.py`). -/
def AU : ℝ := 1.496e11

/-- `create_celestial_bodies` from `index.py`: the ten solar-system presets
(the color constants inlined as RGB triples). -/
def create_celestial_bodies : List Body :=
  let sun := { mkBody "Sun" 1.98847e30 0 0 30 (255, 255, 0) with is_sun := true }
  let mercury := { mkBody "Mercury" 3.30e23 (0.387 * AU) 0 8 (130, 130, 130) with
    y_velocity := -47.4e3 }
  let venus := { mkBody "Venus" 4.87e24 (0.723 * AU) 0 14 (255, 255, 255) with
    y_velocity := -35.0e3 }
  let earth := { mkBody "Earth" 5.972e24 (-AU) 0 16 (100, 149, 237) with
    y_velocity := 29.78e3 }
  let mars := { mkBody "Mars" 6.42e23 (-1.524 * AU) 0 12 (188, 39, 50) with
    y_velocity := 24.077e3 }
  let jupiter := { mkBody "Jupiter" 1.898e27 (5.203 * AU) 0 20 (255, 165, 0) with
    y_velocity := -13.07e3 }
  let saturn := { mkBody "Saturn" 5.683e26 (-9.539 * AU) 0 18 (173, 216, 230) with
    y_velocity := 9.69e3 }
  let uranus := { mkBody "Uranus" 8.681e25 (19.18 * AU) 0 16 (130, 130, 130) with
    y_velocity := -6.81e3 }
  let neptune := { mkBody "Neptune" 1.024e26 (-30.06 * AU) 0 16 (128, 0, 128) with
    y_velocity := 5.43e3 }
  let moon := { mkBody "Moon" 7.34767309e22 (earth.x - 3.844e8) earth.y 6
      (130, 130, 130) with y_velocity := earth.y_velocity + 1.022e3 }
  [sun, mercury, venus, earth, mars, jupiter, saturn, uranus, neptune, moon]

/-- The keys the `index.py` main loop reacts to in its `KEYDOWN` branch
(`K_PLUS` and `K_EQUALS` act alike, as do `K_MINUS` and `K_UNDERSCORE`). -/
inductive Key
  | o
  | plus
  | minus
  | space
  | r

/-- The mutable main-loop state of `index.py` that the keyboard branch
touches. -/
structure SimUI where
  show_orbit : Bool
  simulation_speed : ℝ
  bodies : List Body
  zoom_level : ℝ
  offset_x : ℝ
  offset_y : ℝ

/-- The `KEYDOWN` event handling of `index.py` (lines 207-220): orbit
toggle, speed doubling, speed halving floored at `0.125`, space
pause/resume, and reset to the initial presets. -/
def handleKeydown (k : Key) (st : SimUI) : SimUI :=
  match k with
  | .o => { st with show_orbit := !st.show_orbit }
  | .plus => { st with simulation_speed := st.simulation_speed * 2 }
  | .minus => { st with simulation_speed := max (st.simulation_speed / 2) 0.125 }
  | .space => { st with simulation_speed :=
      if st.simulation_speed ≠ 0 then 0 else 1 }
  | .r =>
    { st with
      bodies := create_celestial_bodies
      offset_x := 0
      offset_y := 0
      zoom_level := 0.07
      simulation_speed := 1 }

/-- The per-frame physics block of `index.py` (lines 243-247):
`timestep = TIMESTEP * simulation_speed`, and the update loop runs only
when the speed multiplier is nonzero. -/
def framePhysics (simulation_speed : ℝ) (bodies : List Body) : List Body :=
  let timestep := TIMESTEP * simulation_speed
  if simulation_speed ≠ 0 then stepAll timestep bodies else bodies

/-- Probe body at the origin with unit mass, used in concrete witnesses. -/
def bodyA : Body := mkBody "A" 1 0 0 1 (0, 0, 0)

/-- Probe body at `x = 1`; its mass makes `G * bodyB.mass = 1` exactly. -/
def bodyB : Body := mkBody "B" (10 ^ 15 / 66743) 1 0 1 (0, 0, 0)

/-- Probe body used for the coincident-position witnesses. -/
def bodyC : Body := mkBody "C" 1 5 5 1 (0, 0, 0)

/-- Second probe body at the same position as `bodyC`. -/
def bodyD : Body := mkBody "D" 2 5 5 1 (0, 0, 0)

/-- Probe `simple-imp.py` body resting at the origin. -/
def simpleO : SimpleBody := ⟨"O", 1, 0, 0, 1, (0, 0, 0), 0, 0, []⟩

/-- Second probe `simple-imp.py` body, also at the origin. -/
def simpleP : SimpleBody := ⟨"P", 2, 0, 0, 1, (0, 0, 0), 0, 0, []⟩

/-- Probe `simple-imp.py` body at `(3, 4)` for the antisymmetry witness. -/
def simpleQ : SimpleBody := ⟨"Q", 3, 3, 4, 1, (0, 0, 0), 0, 0, []⟩

/-- The rocket of the `rocketsim.py` default setup: dry mass 50000 kg, fuel
150000 kg, starting on the surface with zero velocity, vertical launch,
thrust 3.5e6 N assigned after construction as `main` does. -/
def rocket0 : Rocket :=
  { mkRocket 50000 150000 (0, R_EARTH) (0, 0) 90 with thrust := 3500000 }

/-- `stepIter` does not change the length of the body list. -/
theorem stepIter_length (t : ℝ) (bs : List Body) (i : ℕ) :
    (stepIter t bs i).length = bs.length := by
  unfold stepIter
  cases hb : bs.get? i
  · rfl
  · exact List.length_set bs i _

/-- Unfolding one iteration of the in-place loop. -/
theorem stepUpTo_succ (t : ℝ) (bs : List Body) (i : ℕ) :
    stepUpTo t bs (i + 1) = stepIter t (stepUpTo t bs i) i := by
  unfold stepUpTo
  rw [List.range_succ, List.foldl_append]
  rfl

/-- The first `i` iterations keep the body-list length. -/
theorem stepUpTo_length (t : ℝ) (bs : List Body) (i : ℕ) :
    (stepUpTo t bs i).length = bs.length := by
  induction i with
  | zero => rfl
  | succ n ih => rw [stepUpTo_succ, stepIter_length, ih]

/-- An iteration at one index leaves the entries at other indices alone. -/
theorem stepIter_get?_ne (t : ℝ) (bs : List Body) {i j : ℕ} (h : i ≠ j) :
    (stepIter t bs i).get? j = bs.get? j := by
  unfold stepIter
  cases hb : bs.get? i
  · rfl
  · exact List.get?_set_ne _ _ h

/-- Entry `i` of the finished loop is already fixed after iteration `i`. -/
theorem stepAll_get?_eq_stepUpTo (t : ℝ) (bs : List Body) (i : ℕ)
    (h : i < bs.length) :
    (stepAll t bs).get? i = (stepUpTo t bs (i + 1)).get? i := by
  have key : ∀ n, i < n → (stepUpTo t bs n).get? i = (stepUpTo t bs (i + 1)).get? i := by
    intro n
    induction n with
    | zero => omega
    | succ m ih =>
      intro hm
      rcases Nat.lt_or_ge i m with hlt | hge
      · rw [stepUpTo_succ, stepIter_get?_ne t _ (by omega), ih hlt]
      · have : i = m := by omega
        rw [this]
  exact key bs.length h

/-- One bounded append, written as a `drop` of the extended buffer. -/
theorem orbitAppend_eq_drop {α : Type} (cap : ℕ) (b : List α) (p : α)
    (hb : b.length ≤ cap) :
    orbitAppend cap b p = (b ++ [p]).drop (b.length + 1 - cap) := by
  simp only [orbitAppend]
  split_ifs with h
  · simp only [List.length_append, List.length_singleton] at h
    have hk : b.length + 1 - cap = 1 := by omega
    rw [hk, List.drop_one]
  · simp only [List.length_append, List.length_singleton, not_lt] at h
    have hk : b.length + 1 - cap = 0 := by omega
    rw [hk, List.drop_zero]

/-- Folding bounded appends over a point sequence keeps exactly the most
recent `cap` points of the buffer-plus-sequence. -/
theorem foldl_orbitAppend {α : Type} (cap : ℕ) (ps : List α) :
    ∀ b : List α, b.length ≤ cap →
      ps.foldl (orbitAppend cap) b = (b ++ ps).drop (b.length + ps.length - cap) := by
  induction ps with
  | nil =>
    intro b hb
    have hk : b.length + ([] : List α).length - cap = 0 := by
      simp only [List.length_nil]; omega
    rw [List.foldl_nil, hk, List.append_nil, List.drop_zero]
  | cons p rest ih =>
    intro b hb
    rw [List.foldl_cons, orbitAppend_eq_drop cap b p hb]
    have hk : b.length + 1 - cap ≤ (b ++ [p]).length := by
      simp only [List.length_append, List.length_singleton]; omega
    have hlen : ((b ++ [p]).drop (b.length + 1 - cap)).length ≤ cap := by
      simp only [List.length_drop, List.length_append, List.length_singleton]
      omega
    rw [ih _ hlen, ← List.drop_append_of_le_length hk, List.drop_drop]
    have harr : (b ++ [p]) ++ rest = b ++ p :: rest := by simp
    have hidx : b.length + 1 - cap +
        (((b ++ [p]).drop (b.length + 1 - cap)).length + rest.length - cap) =
        b.length + (p :: rest).length - cap := by
      simp only [List.length_drop, List.length_append, List.length_singleton,
        List.length_cons, List.length_nil]
      omega
    rw [harr, hidx]

/-- C4: for every trajectory-buffer capacity and every finite sequence of
`append` calls starting from the empty buffer, the buffer length never
exceeds the capacity, and after `capacity + K` appends (`K ≥ 0`) the
buffer holds exactly the last `capacity` appended points in append order
(oldest at index 0, newest at the end). -/
theorem trajectory_buffer_bounded {α : Type} (cap : ℕ) (ps : List α) :
    (ps.foldl (orbitAppend cap) []).length ≤ cap ∧
    ps.foldl (orbitAppend cap) [] = ps.drop (ps.length - cap) := by
  have h := foldl_orbitAppend cap ps [] (by simp)
  simp only [List.length_nil, List.nil_append, Nat.zero_add] at h
  refine ⟨?_, h⟩
  rw [h, List.length_drop]
  omega

/-- C9: the `+` key doubles the speed multiplier, the `-` key halves it
floored at `0.125` (so the result is never below the floor), and a frame
whose multiplier is exactly `0` skips the update loop, leaving every
body's physics state unchanged. -/
theorem speed_control_transitions (st : SimUI) (bs : List Body) :
    (handleKeydown .plus st).simulation_speed = 2 * st.simulation_speed ∧
    (handleKeydown .minus st).simulation_speed
      = max (st.simulation_speed / 2) 0.125 ∧
    0.125 ≤ (handleKeydown .minus st).simulation_speed ∧
    framePhysics 0 bs = bs := by
  refine ⟨by simp [handleKeydown, mul_comm], rfl, le_max_right _ _, ?_⟩
  simp [framePhysics]

/-- C10: one per-step update modifies only position, velocity and the
trajectory buffer; the body's name, mass, radius, color and sun flag are
unchanged, in both the `index.py` and the `simulation.py` variant. -/
theorem update_touches_only_dynamic_fields (b : Body) (others : List Body)
    (t : ℝ) :
    ((update_position b others t).name = b.name ∧
     (update_position b others t).mass = b.mass ∧
     (update_position b others t).radius = b.radius ∧
     (update_position b others t).color = b.color ∧
     (update_position b others t).is_sun = b.is_sun) ∧
    ((update_position_sim b others).name = b.name ∧
     (update_position_sim b others).mass = b.mass ∧
     (update_position_sim b others).radius = b.radius ∧
     (update_position_sim b others).color = b.color ∧
     (update_position_sim b others).is_sun = b.is_sun) :=
  ⟨⟨rfl, rfl, rfl, rfl, rfl⟩, ⟨rfl, rfl, rfl, rfl, rfl⟩⟩

/-- Unfolding `stepIter` when the index is in range. -/
theorem stepIter_of_get? {t : ℝ} {bs : List Body} {i : ℕ} {b : Body}
    (hb : bs.get? i = some b) :
    stepIter t bs i = bs.set i (update_position b (bs.eraseIdx i) t) := by
  unfold stepIter
  rw [hb]

/-- C2 is false as stated: with two bodies, the second body's update reads
the first body's already-updated position, so the sequential in-place loop
of `index.py` differs from the snapshot-semantics step at a concrete
two-body input. -/
theorem stepAll_not_snapshot :
    stepAll 2 [bodyA, bodyB] ≠ stepAllSnapshot 2 [bodyA, bodyB] := by
  norm_num [stepAll, stepAllSnapshot, stepIter, List.range_succ,
    update_position, totalForce, calculate_gravitational_force, bodyA, bodyB,
    mkBody, cosAtan2, sinAtan2, G, orbitAppend, Body.mk.injEq]

/-- C2 (amended): the loop updates bodies sequentially in place — the body
at index `i` is updated against the list in which bodies `0..i-1` already
carry their post-step states (and the bodies from `i` on their pre-step
states), not against the pre-step snapshot. -/
theorem stepAll_sequential_semantics (t : ℝ) (bs : List Body) (i : ℕ)
    (h : i < bs.length) :
    ∃ b, (stepUpTo t bs i).get? i = some b ∧
      (stepAll t bs).get? i
        = some (update_position b ((stepUpTo t bs i).eraseIdx i) t) := by
  have hlen : (stepUpTo t bs i).length = bs.length := stepUpTo_length t bs i
  have hi : i < (stepUpTo t bs i).length := by omega
  refine ⟨(stepUpTo t bs i).get ⟨i, hi⟩, List.get?_eq_get hi, ?_⟩
  rw [stepAll_get?_eq_stepUpTo t bs i h, stepUpTo_succ,
    stepIter_of_get? (List.get?_eq_get hi)]
  exact List.get?_set_eq_of_lt _ hi

/-- Witness for the amended C2 theorem at a concrete two-body system. -/
theorem stepAll_sequential_semantics_witness :
    1 < ([bodyA, bodyB] : List Body).length ∧
    (∃ b, (stepUpTo 2 [bodyA, bodyB] 1).get? 1 = some b ∧
      (stepAll 2 [bodyA, bodyB]).get? 1
        = some (update_position b ((stepUpTo 2 [bodyA, bodyB] 1).eraseIdx 1) 2)) :=
  ⟨by simp, stepAll_sequential_semantics 2 [bodyA, bodyB] 1 (by simp)⟩

/-- C3 is false as stated: at a concrete two-body input, `index.py`'s
update differs from the spec's recompute-at-new-position Verlet step,
because the code reuses the pre-step acceleration in the second
half-kick instead of re-evaluating the force at the updated position. -/
theorem verlet_recompute_differs :
    update_position bodyA [bodyB] 2 ≠ update_position_recompute bodyA [bodyB] 2 := by
  norm_num [update_position, update_position_recompute, totalForce,
    calculate_gravitational_force, bodyA, bodyB, mkBody, cosAtan2, sinAtan2,
    G, orbitAppend, Body.mk.injEq]

/-- C3 (amended): the step computes the net force once, at the pre-step
positions, and both half-kicks reuse that same acceleration — so a call
adds `a·dt` to the velocity and `(v + a·dt/2)·dt` to the position, with
no second force evaluation after the position update. -/
theorem verlet_single_acceleration (b : Body) (others : List Body) (t : ℝ) :
    (update_position b others t).x_velocity
      = b.x_velocity + (totalForce b others).1 / b.mass * t ∧
    (update_position b others t).y_velocity
      = b.y_velocity + (totalForce b others).2 / b.mass * t ∧
    (update_position b others t).x
      = b.x + (b.x_velocity + (totalForce b others).1 / b.mass * (t / 2)) * t ∧
    (update_position b others t).y
      = b.y + (b.y_velocity + (totalForce b others).2 / b.mass * (t / 2)) * t := by
  refine ⟨?_, ?_, ?_, ?_⟩ <;> simp only [update_position] <;> ring

/-- C5 is false as stated: for a body resting at the origin in an 800x800
window with unit zoom and no pan, `simple-imp.py` stores `(400, 400)` —
the screen-space point — in the trajectory history, not the raw
simulation-space position `(0, 0)`. -/
theorem stored_point_not_raw :
    (update_position_simple simpleO [] 800 800 1 0 0).orbit
      ≠ [((update_position_simple simpleO [] 800 800 1 0 0).x,
          (update_position_simple simpleO [] 800 800 1 0 0).y)] := by
  norm_num [update_position_simple, simpleO, orbitAppend, SCALE_SIMPLE,
    TIMESTEP_SIMPLE, Prod.mk.injEq]

/-- C5 (amended): `index.py` and `simulation.py` append the body's own new
simulation-space position to the history, with no screen transform;
`simple-imp.py` (like the neural-network variant) instead appends the
*screen transform* of the new position, with scale, zoom, half-window
offset and pan baked into the stored point. -/
theorem stored_history_points (b : Body) (others : List Body) (t : ℝ)
    (sb : SimpleBody) (sothers : List SimpleBody) (width height : ℕ)
    (zoom pan_x pan_y : ℝ) :
    (update_position b others t).orbit
      = orbitAppend 5000 b.orbit
          ((update_position b others t).x, (update_position b others t).y) ∧
    (update_position_sim b others).orbit
      = orbitAppend 5000 b.orbit
          ((update_position_sim b others).x, (update_position_sim b others).y) ∧
    (update_position_simple sb sothers width height zoom pan_x pan_y).orbit
      = orbitAppend 500 sb.orbit
          ((update_position_simple sb sothers width height zoom pan_x pan_y).x
              * SCALE_SIMPLE * zoom + ((width / 2 : ℕ) : ℝ) + pan_x,
           (update_position_simple sb sothers width height zoom pan_x pan_y).y
              * SCALE_SIMPLE * zoom + ((height / 2 : ℕ) : ℝ) + pan_y) :=
  ⟨rfl, rfl, rfl⟩

/-- Accumulating with the exception caught (`simulation.py`) equals
accumulating with the zero-force guard (`index.py`): a skipped
contribution and an added `(0, 0)` contribution agree. -/
theorem totalForceSim_eq_totalForce (self : Body) (others : List Body) :
    totalForceSim self others = totalForce self others := by
  unfold totalForceSim totalForce
  suffices h : ∀ acc : ℝ × ℝ,
      others.foldl
        (fun acc body =>
          match calculate_gravitational_force_sim self body with
          | none => acc
          | some f => (acc.1 + f.1, acc.2 + f.2)) acc
      = others.foldl
        (fun acc body =>
          let f := calculate_gravitational_force self body
          (acc.1 + f.1, acc.2 + f.2)) acc from h (0, 0)
  induction others with
  | nil => intro acc; rfl
  | cons o rest ih =>
    intro acc
    rw [List.foldl_cons, List.foldl_cons, ih]
    congr 1
    show (match calculate_gravitational_force_sim self o with
          | none => acc
          | some f => (acc.1 + f.1, acc.2 + f.2))
        = (let f := calculate_gravitational_force self o
           (acc.1 + f.1, acc.2 + f.2))
    simp only [calculate_gravitational_force_sim, calculate_gravitational_force]
    split_ifs with h
    · simp
    · rfl

/-- C1 is false as stated: `simple-imp.py`'s `attraction` between two
distinct bodies at exactly coincident positions clamps the distance to
`1e3` and returns a *nonzero* force vector, not `(0, 0)`. -/
theorem coincident_attraction_nonzero : attraction simpleO simpleP ≠ (0, 0) := by
  norm_num [attraction, simpleO, simpleP, cosAtan2, sinAtan2, G,
    Prod.mk.injEq]

/-- C1 (amended): `index.py`'s force returns `(0, 0)` at exactly zero
separation; `simulation.py`'s force raises instead, but its step catches
the error and equals the `index.py` step at the 60 s timestep, so no
exception leaves a simulation step; `simple-imp.py` clamps the distance
to `1e3` m, so at coincident positions it returns the finite but
*nonzero* force `(G·m1·m2/1e3², 0)`. -/
theorem zero_separation_guard (a b o : Body) (others : List Body)
    (sa sb : SimpleBody) (hab : a.x = b.x ∧ a.y = b.y)
    (hs : sa.x = sb.x ∧ sa.y = sb.y) :
    calculate_gravitational_force a b = (0, 0) ∧
    update_position_sim o others = update_position o others TIMESTEP ∧
    attraction sa sb = (G * sa.mass * sb.mass / (1e3 : ℝ) ^ 2, 0) := by
  obtain ⟨h1, h2⟩ := hab
  obtain ⟨g1, g2⟩ := hs
  refine ⟨?_, ?_, ?_⟩
  · simp [calculate_gravitational_force, h1, h2]
  · unfold update_position_sim update_position
    rw [totalForceSim_eq_totalForce]
  · simp [attraction, g1, g2, cosAtan2, sinAtan2]
    rw [max_eq_right (by norm_num : (0 : ℝ) ≤ 1e3)]

/-- Witness for the amended C1 theorem at concrete coincident bodies. -/
theorem zero_separation_guard_witness :
    (bodyC.x = bodyD.x ∧ bodyC.y = bodyD.y) ∧
    (simpleO.x = simpleP.x ∧ simpleO.y = simpleP.y) ∧
    (calculate_gravitational_force bodyC bodyD = (0, 0) ∧
     update_position_sim bodyA [bodyB] = update_position bodyA [bodyB] TIMESTEP ∧
     attraction simpleO simpleP = (G * simpleO.mass * simpleP.mass / (1e3 : ℝ) ^ 2, 0)) :=
  ⟨⟨rfl, rfl⟩, ⟨rfl, rfl⟩,
   zero_separation_guard bodyC bodyD bodyA [bodyB] simpleO simpleP
     ⟨rfl, rfl⟩ ⟨rfl, rfl⟩⟩

/-- A sum of squares of reals that are not both zero is positive. -/
theorem sum_sq_pos {dx dy : ℝ} (h : ¬(dx = 0 ∧ dy = 0)) :
    0 < dx ^ 2 + dy ^ 2 := by
  by_cases hdx : dx = 0
  · have hdy : dy ≠ 0 := fun hy => h ⟨hdx, hy⟩
    have := pow_two_pos_of_ne_zero hdy
    nlinarith [sq_nonneg dx]
  · have := pow_two_pos_of_ne_zero hdx
    nlinarith [sq_nonneg dy]

/-- Negating a nonzero separation vector negates the `atan2` cosine. -/
theorem cosAtan2_neg (dy dx : ℝ) (h : ¬(dx = 0 ∧ dy = 0)) :
    cosAtan2 (-dy) (-dx) = -cosAtan2 dy dx := by
  have h' : ¬(-dx = 0 ∧ -dy = 0) := by
    simpa [neg_eq_zero] using h
  simp only [cosAtan2, if_neg h, if_neg h']
  rw [show (-dx) ^ 2 + (-dy) ^ 2 = dx ^ 2 + dy ^ 2 by ring]
  ring

/-- Negating a nonzero separation vector negates the `atan2` sine. -/
theorem sinAtan2_neg (dy dx : ℝ) (h : ¬(dx = 0 ∧ dy = 0)) :
    sinAtan2 (-dy) (-dx) = -sinAtan2 dy dx := by
  have h' : ¬(-dx = 0 ∧ -dy = 0) := by
    simpa [neg_eq_zero] using h
  simp only [sinAtan2, if_neg h, if_neg h']
  rw [show (-dx) ^ 2 + (-dy) ^ 2 = dx ^ 2 + dy ^ 2 by ring]
  ring

/-- C8: for distinct positions and positive masses, the gravitational
force on one body due to the other is the exact negation of the reverse
force (Newton's third law), both in the `index.py` force and in the
clamped `simple-imp.py` `attraction`, in exact real arithmetic. -/
theorem newton_third_law (a b : Body) (sa sb : SimpleBody)
    (hab : (a.x, a.y) ≠ (b.x, b.y)) (hma : 0 < a.mass) (hmb : 0 < b.mass)
    (hsab : (sa.x, sa.y) ≠ (sb.x, sb.y)) (hsma : 0 < sa.mass)
    (hsmb : 0 < sb.mass) :
    calculate_gravitational_force a b
      = (-(calculate_gravitational_force b a).1,
         -(calculate_gravitational_force b a).2) ∧
    attraction sa sb = (-(attraction sb sa).1, -(attraction sb sa).2) := by
  constructor
  · have hne : ¬(b.x - a.x = 0 ∧ b.y - a.y = 0) := by
      rintro ⟨e1, e2⟩
      apply hab
      have hx : a.x = b.x := by linarith
      have hy : a.y = b.y := by linarith
      rw [hx, hy]
    have hd : Real.sqrt ((b.x - a.x) ^ 2 + (b.y - a.y) ^ 2) ≠ 0 :=
      ne_of_gt (Real.sqrt_pos.mpr (sum_sq_pos hne))
    simp only [calculate_gravitational_force]
    rw [show a.x - b.x = -(b.x - a.x) by ring,
        show a.y - b.y = -(b.y - a.y) by ring,
        show (-(b.x - a.x)) ^ 2 + (-(b.y - a.y)) ^ 2
            = (b.x - a.x) ^ 2 + (b.y - a.y) ^ 2 by ring,
        if_neg hd, if_neg hd, cosAtan2_neg _ _ hne, sinAtan2_neg _ _ hne]
    simp only [Prod.mk.injEq]
    constructor <;> ring
  · have hne : ¬(sb.x - sa.x = 0 ∧ sb.y - sa.y = 0) := by
      rintro ⟨e1, e2⟩
      apply hsab
      have hx : sa.x = sb.x := by linarith
      have hy : sa.y = sb.y := by linarith
      rw [hx, hy]
    simp only [attraction]
    rw [show sa.x - sb.x = -(sb.x - sa.x) by ring,
        show sa.y - sb.y = -(sb.y - sa.y) by ring,
        show (-(sb.x - sa.x)) ^ 2 + (-(sb.y - sa.y)) ^ 2
            = (sb.x - sa.x) ^ 2 + (sb.y - sa.y) ^ 2 by ring,
        cosAtan2_neg _ _ hne, sinAtan2_neg _ _ hne]
    simp only [Prod.mk.injEq]
    constructor <;> ring

/-- Witness for C8 at concrete distinct bodies. -/
theorem newton_third_law_witness :
    ((bodyA.x, bodyA.y) ≠ (bodyB.x, bodyB.y) ∧ 0 < bodyA.mass ∧
      0 < bodyB.mass ∧ (simpleO.x, simpleO.y) ≠ (simpleQ.x, simpleQ.y) ∧
      0 < simpleO.mass ∧ 0 < simpleQ.mass) ∧
    (calculate_gravitational_force bodyA bodyB
      = (-(calculate_gravitational_force bodyB bodyA).1,
         -(calculate_gravitational_force bodyB bodyA).2) ∧
     attraction simpleO simpleQ
      = (-(attraction simpleQ simpleO).1, -(attraction simpleQ simpleO).2)) :=
  ⟨⟨by norm_num [bodyA, bodyB, mkBody, Prod.ext_iff],
    by norm_num [bodyA, mkBody], by norm_num [bodyB, mkBody],
    by norm_num [simpleO, simpleQ, Prod.ext_iff],
    by norm_num [simpleO], by norm_num [simpleQ]⟩,
   newton_third_law bodyA bodyB simpleO simpleQ
     (by norm_num [bodyA, bodyB, mkBody, Prod.ext_iff])
     (by norm_num [bodyA, mkBody]) (by norm_num [bodyB, mkBody])
     (by norm_num [simpleO, simpleQ, Prod.ext_iff])
     (by norm_num [simpleO]) (by norm_num [simpleQ])⟩

/-- C6: one RK4 step evaluates the derivative function exactly four
times — at the current state and at the three trial offsets
`state + dt/2·k1`, `state + dt/2·k2`, `state + dt·k3` — and produces the
new state as `state + (dt/6)·(k1 + 2·k2 + 2·k3 + k4)`. -/
theorem rk4_four_stage_combination (r : Rocket) (env : Atmosphere) (dt : ℝ) :
    integratedState r env dt =
      (let s := r.state
       let k1 := derivatives r env s
       let k2 := derivatives r env (s.add (RState.smul (dt / 2) k1))
       let k3 := derivatives r env (s.add (RState.smul (dt / 2) k2))
       let k4 := derivatives r env (s.add (RState.smul dt k3))
       s.add (RState.smul (dt / 6)
         ((k1.add (RState.smul 2 k2)).add ((RState.smul 2 k3).add k4)))) := by
  have hhalf : ∀ s k : RState, s.add (RState.smul (dt / 2) k) =
      ⟨s.x + 0.5 * dt * k.x, s.y + 0.5 * dt * k.y, s.vx + 0.5 * dt * k.vx,
       s.vy + 0.5 * dt * k.vy, s.m + 0.5 * dt * k.m, s.f + 0.5 * dt * k.f⟩ := by
    intro s k
    have h05 : (0.5 : ℝ) = 1 / 2 := by norm_num
    simp only [RState.add, RState.smul, h05, RState.mk.injEq]
    refine ⟨?_, ?_, ?_, ?_, ?_, ?_⟩ <;> ring
  have hfull : ∀ s k : RState, s.add (RState.smul dt k) =
      ⟨s.x + dt * k.x, s.y + dt * k.y, s.vx + dt * k.vx,
       s.vy + dt * k.vy, s.m + dt * k.m, s.f + dt * k.f⟩ := by
    intro s k
    simp only [RState.add, RState.smul]
  simp only [hhalf, hfull, integratedState]
  simp only [RState.add, RState.smul, RState.mk.injEq]
  refine ⟨?_, ?_, ?_, ?_, ?_, ?_⟩ <;> ring

/-- Both mass slots of `derivatives` carry the same depletion rate. -/
theorem derivatives_m_eq_f (r : Rocket) (env : Atmosphere) (s : RState) :
    (derivatives r env s).m = (derivatives r env s).f := rfl

/-- The RK4 combination moves `total_mass` and `fuel_mass` in lockstep:
their difference — the dry mass, by the constructor invariant — is
untouched by integration. -/
theorem integrated_mass_difference (r : Rocket) (env : Atmosphere) (dt : ℝ) :
    (integratedState r env dt).m - (integratedState r env dt).f
      = r.total_mass - r.fuel_mass := by
  simp only [integratedState, Rocket.state, derivatives_m_eq_f]
  ring

/-- C7: after one `update_rk4` step of a rocket whose total mass is dry
plus fuel and whose dry mass is nonnegative: fuel and total mass are
nonnegative, the dry-plus-fuel invariant and the dry mass itself are
preserved, and if integration brought fuel to (or past) zero then fuel is
exactly zero, total mass is floored at the dry mass, and thrust is
forcibly disabled (flag cleared and thrust zeroed). -/
theorem fuel_clamp_and_cutoff (r : Rocket) (env : Atmosphere) (dt : ℝ)
    (hinv : r.total_mass = r.mass + r.fuel_mass) (hdry : 0 ≤ r.mass) :
    0 ≤ (update_rk4 r dt env).fuel_mass ∧
    0 ≤ (update_rk4 r dt env).total_mass ∧
    (update_rk4 r dt env).total_mass
      = r.mass + (update_rk4 r dt env).fuel_mass ∧
    (update_rk4 r dt env).mass = r.mass ∧
    ((integratedState r env dt).f ≤ 0 →
      (update_rk4 r dt env).fuel_mass = 0 ∧
      (update_rk4 r dt env).total_mass = r.mass ∧
      (update_rk4 r dt env).thrusting = false ∧
      (update_rk4 r dt env).thrust = 0) := by
  have hdiff := integrated_mass_difference r env dt
  have hm : (integratedState r env dt).m
      = r.mass + (integratedState r env dt).f := by linarith
  by_cases h1 : (integratedState r env dt).f < 0
  · simp only [update_rk4, h1, if_true, if_pos, le_refl]
    norm_num
    exact hdry
  · push_neg at h1
    by_cases h2 : (integratedState r env dt).f ≤ 0
    · have h0 : (integratedState r env dt).f = 0 := le_antisymm h2 h1
      simp only [update_rk4, if_neg (not_lt.mpr h1), h2, if_true]
      norm_num [h0, hm]
      exact hdry
    · simp only [update_rk4, if_neg (not_lt.mpr h1), if_neg h2]
      refine ⟨h1, by linarith, hm, trivial, fun hc => absurd hc h2⟩

/-- Witness for C7 at the default `rocketsim.py` setup. -/
theorem fuel_clamp_and_cutoff_witness :
    rocket0.total_mass = rocket0.mass + rocket0.fuel_mass ∧
    0 ≤ rocket0.mass ∧
    (0 ≤ (update_rk4 rocket0 0.1 ⟨8500⟩).fuel_mass ∧
     0 ≤ (update_rk4 rocket0 0.1 ⟨8500⟩).total_mass ∧
     (update_rk4 rocket0 0.1 ⟨8500⟩).total_mass
       = rocket0.mass + (update_rk4 rocket0 0.1 ⟨8500⟩).fuel_mass ∧
     (update_rk4 rocket0 0.1 ⟨8500⟩).mass = rocket0.mass ∧
     ((integratedState rocket0 ⟨8500⟩ 0.1).f ≤ 0 →
       (update_rk4 rocket0 0.1 ⟨8500⟩).fuel_mass = 0 ∧
       (update_rk4 rocket0 0.1 ⟨8500⟩).total_mass = rocket0.mass ∧
       (update_rk4 rocket0 0.1 ⟨8500⟩).thrusting = false ∧
       (update_rk4 rocket0 0.1 ⟨8500⟩).thrust = 0)) :=
  ⟨by norm_num [rocket0, mkRocket], by norm_num [rocket0, mkRocket],
   fuel_clamp_and_cutoff rocket0 ⟨8500⟩ 0.1
     (by norm_num [rocket0, mkRocket]) (by norm_num [rocket0, mkRocket])⟩

end SpaceSim
